import Mathlib

/-!
Shallow embedding of the window-management core of the qtubuntu platform
plugin (`src/ubuntumirclient/window.cpp`), together with theorems checking
the natural-language specification against it.

The embedding mirrors the C++ source: Qt geometry types (`QRect`, `QSize`,
`QPoint`) become Lean structures over `Int` with the exact edge semantics of
Qt (`QRect.setY` keeps the bottom edge fixed, so it may change the height);
the Mir pixel-format enum becomes an inductive type; the per-window mutable
state (`UbuntuWindowPrivate`) becomes a structure threaded explicitly through
each operation; calls into Qt/Mir (`mir_wait_for(mir_surface_set_state ...)`,
`QWindowSystemInterface::handleExposeEvent`, ...) become emitted `Effect`
values so a theorem can speak about which protocol requests and toolkit
notifications an operation issues and in which order.
-/

namespace QtUbuntu

/-- `QPoint`: integer point. -/
structure QPoint where
  x : Int
  y : Int
deriving DecidableEq, Repr

/-- `QSize`: integer size. -/
structure QSize where
  w : Int
  h : Int
deriving DecidableEq, Repr

/-- `QRect`: integer rectangle stored as origin plus size, matching Qt's
representation (x1, y1, width, height). -/
structure QRect where
  x : Int
  y : Int
  w : Int
  h : Int
deriving DecidableEq, Repr

/-- An empty (default-constructed) `QRect()`. In Qt this is
`QRect(0, 0, 0, 0)` (isNull/isEmpty). -/
def QRect.empty : QRect := ⟨0, 0, 0, 0⟩

/-- `QRect::size()`. -/
def QRect.size (r : QRect) : QSize := ⟨r.w, r.h⟩

/-- `QRect(QPoint(), size)`: rectangle of the given size at the origin. -/
def QRect.atOrigin (s : QSize) : QRect := ⟨0, 0, s.w, s.h⟩

/-- `QRect::setY(y)`: sets the top edge to `y` without moving the bottom
edge, so the height changes by the old `y` minus the new one (Qt semantics:
"may change the height, but will never change the bottom edge"). -/
def QRect.setY (r : QRect) (y : Int) : QRect :=
  { r with y := y, h := r.h + (r.y - y) }

/-- `QRect::setWidth(w)`: changes the width only (moves the right edge). -/
def QRect.setWidth (r : QRect) (w : Int) : QRect := { r with w := w }

/-- `QRect::setHeight(h)`: changes the height only (moves the bottom edge). -/
def QRect.setHeight (r : QRect) (h : Int) : QRect := { r with h := h }

/-- The Qt window states that reach this plugin (`Qt::WindowState`).
`active` stands for `Qt::WindowActive`, which falls into the `default:`
branch of the source's switches. -/
inductive WindowState where
  | noState
  | minimized
  | maximized
  | fullScreen
  | active
deriving DecidableEq, Repr

/-- `MirPixelFormat` (the constructors the negotiator can see; the
candidate list uses five of them, and `invalid` is the sentinel). -/
inductive MirPixelFormat where
  | invalid
  | abgr_8888
  | xbgr_8888
  | argb_8888
  | xrgb_8888
  | bgr_888
  | rgb_888
deriving DecidableEq, Repr

/-- `MirSurfaceState` values this plugin requests. -/
inductive MirSurfaceState where
  | restored
  | minimized
  | maximized
  | fullscreen
deriving DecidableEq, Repr

/-- `qtWindowStateToMirSurfaceState` from the anonymous namespace of
window.cpp: NoState → restored, FullScreen → fullscreen,
Maximized → maximized, Minimized → minimized, default → restored. -/
def qtWindowStateToMirSurfaceState : WindowState → MirSurfaceState
  | .noState => .restored
  | .fullScreen => .fullscreen
  | .maximized => .maximized
  | .minimized => .minimized
  | .active => .restored

/-! ### Pixel Format Negotiator (`getPixelFormat`, window.cpp lines 195-223) -/

/-- The fixed priority-ordered candidate list `formats[5]` of
`getPixelFormat`. -/
def formats : List MirPixelFormat :=
  [.argb_8888, .abgr_8888, .xrgb_8888, .xbgr_8888, .bgr_888]

/-- The nested loop of `getPixelFormat`: walk the remaining candidates in
order and return the first one present in the supported set; if the walk
ends, fall through to the sentinel. -/
def firstSupported : List MirPixelFormat → List MirPixelFormat → MirPixelFormat
  | [], _ => .invalid
  | f :: fs, available => if f ∈ available then f else firstSupported fs available

/-- `getPixelFormat(connection, hasAlpha)` with the connection's supported
format set made explicit (the source obtains it via
`mir_connection_get_available_surface_formats`). The loop starts at index 0
when `hasAlpha`, else at index 2, i.e. it drops the two alpha-capable
candidates. -/
def getPixelFormat (availableFormats : List MirPixelFormat) (hasAlpha : Bool) :
    MirPixelFormat :=
  firstSupported (if hasAlpha then formats else formats.drop 2) availableFormats

/-! ### Panel height (`UbuntuWindowPrivate::panelHeight`, lines 177-191) -/

/-- `QByteArray::toInt` for base 10 on the strings this code can receive:
an optional sign followed by one or more decimal digits parses to that
integer with `ok = true`; anything else fails (`ok = false`). -/
def toIntOk (s : String) : Option Int :=
  let digits (cs : List Char) : Option Nat :=
    if cs.isEmpty then none
    else if cs.all Char.isDigit then
      some (cs.foldl (fun acc c => acc * 10 + (c.toNat - 48)) 0)
    else none
  match s.data with
  | '-' :: rest => (digits rest).map (fun n => -(n : Int))
  | '+' :: rest => (digits rest).map (fun n => (n : Int))
  | cs => (digits cs).map (fun n => (n : Int))

/-- `UbuntuWindowPrivate::panelHeight`, with the `GRID_UNIT_PX` environment
value made explicit (`none` models an unset variable; `qgetenv` then yields
an empty byte array). The grid unit defaults to 8; a set, non-empty value
overrides it when it parses as an integer, otherwise the default is kept.
The result is `gridUnit * 3 + qFloor(gridUnit / 8) * 2`, the real-number
division floor being `Int.fdiv`. -/
def panelHeight (gridUnitEnv : Option String) : Int :=
  let defaultGridUnit : Int := 8
  let gridUnit : Int :=
    match gridUnitEnv with
    | none => defaultGridUnit
    | some s =>
      if s.isEmpty then defaultGridUnit
      else match toIntOk s with
        | some n => n
        | none => defaultGridUnit
  gridUnit * 3 + (Int.fdiv gridUnit defaultGridUnit) * 2

/-! ### Surface geometry resolution (`UbuntuWindow::createWindow`,
lines 244-265) -/

/-- The "Get surface geometry" block of `createWindow`: fullscreen takes
the screen's full geometry; maximized takes the screen's available geometry
and then calls `setY(panelHeight)` on it; every other state takes the
window's current geometry and likewise calls `setY(panelHeight)`. Note that
the source sets Y to `panelHeight` absolutely — it does not add
`panelHeight` to the rectangle's own Y origin. -/
def resolveGeometry (state : WindowState) (currentGeometry screenGeometry
    screenAvailableGeometry : QRect) (ph : Int) : QRect :=
  if state = .fullScreen then
    screenGeometry
  else if state = .maximized then
    screenAvailableGeometry.setY ph
  else
    currentGeometry.setY ph

/-- The pixel format `createWindow` hands to the Mir surface spec
(`mir_connection_create_spec_for_normal_surface` /
`..._for_input_method`): exactly the negotiator's result, with no check
against the invalid sentinel, after which `mir_surface_create` is invoked
unconditionally. -/
structure CreateWindowSurfaceRequest where
  pixelFormat : MirPixelFormat
  surfaceCreateAttempted : Bool
deriving DecidableEq, Repr

/-- The format-selection-and-creation slice of `createWindow`: it calls
`getPixelFormat`, builds the spec with whatever came back, and always
proceeds to `mir_wait_for(mir_surface_create(spec, ...))`. -/
def createWindowSurfaceRequest (availableFormats : List MirPixelFormat)
    (needsAlpha : Bool) : CreateWindowSurfaceRequest :=
  { pixelFormat := getPixelFormat availableFormats needsAlpha,
    surfaceCreateAttempted := true }

/-! ### Per-window mutable state and observable effects -/

/-- The fields of `UbuntuWindowPrivate` (plus the `QPlatformWindow` stored
geometry) that the mutating operations read and write. The counter is an
`Int` like the source's `int resizeCatchUpAttempts`. -/
structure WindowData where
  state : WindowState
  bufferSize : QSize
  geometry : QRect
  exposed : Bool
  resizeCatchUpAttempts : Int
deriving DecidableEq, Repr

/-- Observable calls an operation makes, in program order:
`setSurfaceState s` is `mir_wait_for(mir_surface_set_state(surface, s))`
(a synchronous protocol request); `exposeEvent r` is
`QWindowSystemInterface::handleExposeEvent(window, r)`; `flushEvents` is
`QWindowSystemInterface::flushWindowSystemEvents()`; `geometryChanged r` is
`QWindowSystemInterface::handleGeometryChange(window, r)`. -/
inductive Effect where
  | setSurfaceState (s : MirSurfaceState)
  | exposeEvent (r : QRect)
  | flushEvents
  | geometryChanged (r : QRect)
deriving DecidableEq, Repr

/-- The expose rectangle the source computes at each
`handleExposeEvent` site:
`d->exposed ? QRect(QPoint(), geometry().size()) : QRect()`. -/
def exposeRect (w : WindowData) : QRect :=
  if w.exposed then QRect.atOrigin w.geometry.size else QRect.empty

/-- `UbuntuWindow::handleSurfaceResize(width, height)` (lines 330-353):
if the stored buffer size differs from the reported one in either
dimension, set the catch-up counter to 2 and emit an expose event followed
by a flush; otherwise do nothing. The stored buffer size and geometry are
not touched here. -/
def handleSurfaceResize (w : WindowData) (width height : Int) :
    WindowData × List Effect :=
  if w.bufferSize.w ≠ width ∨ w.bufferSize.h ≠ height then
    ({ w with resizeCatchUpAttempts := 2 },
     [.exposeEvent (exposeRect w), .flushEvents])
  else
    (w, [])

/-- `UbuntuWindow::onBuffersSwapped_threadSafe(newBufferWidth,
newBufferHeight)` (lines 453-493): when the size is known (both dimensions
positive) and differs from the stored buffer size, reset the catch-up
counter to 0, store the new buffer size, set the stored geometry's width
and height to it (origin untouched) and notify the toolkit of the geometry
change; else when the catch-up counter is positive, decrement it and emit
an expose event; else do nothing. -/
def onBuffersSwapped (w : WindowData) (newBufferWidth newBufferHeight : Int) :
    WindowData × List Effect :=
  let sizeKnown := newBufferWidth > 0 ∧ newBufferHeight > 0
  if sizeKnown ∧ (w.bufferSize.w ≠ newBufferWidth ∨ w.bufferSize.h ≠ newBufferHeight) then
    let newBufferSize : QSize := ⟨newBufferWidth, newBufferHeight⟩
    let newGeometry := (w.geometry.setWidth newBufferWidth).setHeight newBufferHeight
    ({ w with resizeCatchUpAttempts := 0,
              bufferSize := newBufferSize,
              geometry := newGeometry },
     [.geometryChanged newGeometry])
  else if w.resizeCatchUpAttempts > 0 then
    ({ w with resizeCatchUpAttempts := w.resizeCatchUpAttempts - 1 },
     [.exposeEvent (exposeRect w)])
  else
    (w, [])

/-- `UbuntuWindow::setWindowState(state)` (lines 386-397): no-op when the
requested state equals the stored one; otherwise issue one synchronous
state-change request and store the new state. -/
def setWindowState (w : WindowData) (s : WindowState) :
    WindowData × List Effect :=
  if s = w.state then
    (w, [])
  else
    ({ w with state := s },
     [.setSurfaceState (qtWindowStateToMirSurfaceState s)])

/-- `UbuntuWindow::setVisible(visible)` (lines 416-431): request the
surface state matching the stored window state when showing, or
`minimized` when hiding; then, in both cases, emit an expose event and a
forced flush. No stored field changes. -/
def setVisible (w : WindowData) (visible : Bool) :
    WindowData × List Effect :=
  let request : MirSurfaceState :=
    if visible then qtWindowStateToMirSurfaceState w.state
    else .minimized
  (w, [.setSurfaceState request, .exposeEvent (exposeRect w), .flushEvents])

/-- Recognizer for synchronous state-change requests among effects. -/
def Effect.isStateRequest : Effect → Bool
  | .setSurfaceState _ => true
  | _ => false

/-! ### Window-id allocation (`UbuntuWindow::UbuntuWindow`, lines 142-143,
and `winId`, lines 448-451)

`static int id = 1; d->id = id++;` — a process-wide counter that starts at
1 and is post-incremented at each construction. Modelled over `Nat`, which
matches the C `int` exactly for every program that constructs fewer than
2^31 windows (beyond that the C++ increment overflows, which is undefined
behaviour, not wraparound). -/

/-- Initial value of the process-wide `static int id`. -/
def windowIdInit : Nat := 1

/-- `d->id = id++`: the constructed window receives the counter's current
value and the counter advances by one. -/
def allocWindowId (counter : Nat) : Nat × Nat := (counter, counter + 1)

/-- Counter value before the `n`-th window construction (0-indexed). -/
def counterBefore : Nat → Nat
  | 0 => windowIdInit
  | n + 1 => (allocWindowId (counterBefore n)).2

/-- The id assigned to the `n`-th constructed window, which `winId()`
returns for it. -/
def nthWindowId (n : Nat) : Nat := (allocWindowId (counterBefore n)).1

/-! ### Lock scope of the mutating operations (C++ object-lifetime level)

Each mutating member of `UbuntuWindow` opens with the statement
`QMutexLocker(&d->mutex);` — a `QMutexLocker` TEMPORARY with no variable
name. Per C++ lifetime rules a temporary is destroyed at the end of the
full-expression that creates it, so the mutex is locked and immediately
unlocked by that one statement, before any of the reads and writes that
follow. (The guarded form would be `QMutexLocker locker(&d->mutex);`,
whose destructor runs at the end of the enclosing block.) The step lists
below record each function body at this level: lock/unlock transitions of
the unnamed guard, then the accesses of the shared fields. -/

/-- One step of a member function body, at the granularity the locking
claim needs: mutex transitions and shared-state accesses. -/
inductive Step where
  | lockAcquire
  | lockRelease
  | readShared
  | writeShared
deriving DecidableEq, Repr

/-- `handleSurfaceResize` body: the unnamed `QMutexLocker(&d->mutex)`
temporary locks and unlocks within its own statement; then the function
reads `d->bufferSize` and, on mismatch, writes `d->resizeCatchUpAttempts`
and reads `d->exposed` for the expose event. -/
def handleSurfaceResizeSteps : List Step :=
  [.lockAcquire, .lockRelease, .readShared, .writeShared, .readShared]

/-- `onBuffersSwapped_threadSafe` body: the unnamed guard locks and
unlocks in its own statement; then the function reads `d->bufferSize` and,
on the size-changed path, writes `d->resizeCatchUpAttempts`,
`d->bufferSize` and the stored geometry. -/
def onBuffersSwappedSteps : List Step :=
  [.lockAcquire, .lockRelease, .readShared, .writeShared, .writeShared, .writeShared]

/-- Mutex hold-count right before step `i` of a body (number of acquires
minus releases among the first `i` steps). -/
def lockDepthAt (steps : List Step) (i : Nat) : Int :=
  ((steps.take i).map (fun s =>
    match s with
    | .lockAcquire => (1 : Int)
    | .lockRelease => -1
    | _ => 0)).sum

/-- `true` when every shared-state read or write in the body happens while
the mutex hold-count is positive. -/
def mutationsLocked (steps : List Step) : Bool :=
  (List.range steps.length).all (fun i =>
    match steps.get? i with
    | some .readShared => decide (0 < lockDepthAt steps i)
    | some .writeShared => decide (0 < lockDepthAt steps i)
    | _ => true)

/-! ## Theorems for the claims -/

/-- Claim C1 as stated is false: in the maximized branch `createWindow`
calls `setY(panelHeight)`, which sets the Y origin to `panelHeight`
absolutely instead of offsetting the available geometry's own Y origin.
With available geometry `(0, 10, 100, 90)` and panel height 26 the
resolved Y origin is 26, not `10 + 26 = 36`. -/
theorem C1_maximized_y_counterexample :
    (resolveGeometry .maximized ⟨0, 0, 50, 50⟩ ⟨0, 0, 100, 100⟩
      ⟨0, 10, 100, 90⟩ 26).y ≠ 10 + 26 := by decide

/-- Claim C1, amended: for the maximized state the resolved Y origin
equals `panelHeight` itself — the available geometry's Y origin is
discarded, not offset — and therefore equals
`availableGeometry.y + panelHeight` exactly when the available geometry's
Y origin is 0 (the phone-device assumption the source comments record). -/
theorem C1_maximized_y (cur sg av : QRect) (ph : Int) :
    (resolveGeometry .maximized cur sg av ph).y = ph ∧
    (av.y = 0 → (resolveGeometry .maximized cur sg av ph).y = av.y + ph) := by
  refine ⟨by simp [resolveGeometry, QRect.setY], fun h => ?_⟩
  simp [resolveGeometry, QRect.setY, h]

/-- Witness for C1's amended theorem at a concrete zero-origin available
geometry. -/
theorem C1_maximized_y_witness :
    (resolveGeometry .maximized ⟨0, 0, 50, 50⟩ ⟨0, 0, 100, 100⟩
      ⟨0, 0, 100, 90⟩ 26).y = 0 + 26 :=
  (C1_maximized_y ⟨0, 0, 50, 50⟩ ⟨0, 0, 100, 100⟩ ⟨0, 0, 100, 90⟩ 26).2 rfl

/-- Claim C2: for every supported-format set, the negotiator never
returns an alpha-capable format (ARGB_8888 or ABGR_8888) when alpha is
not requested, and when alpha is requested and at least one alpha-capable
candidate is supported it returns the highest-priority one (ARGB_8888 if
supported, else ABGR_8888). -/
theorem C2_pixelFormat_alpha_policy (available : List MirPixelFormat) :
    (getPixelFormat available false ≠ .argb_8888 ∧
     getPixelFormat available false ≠ .abgr_8888) ∧
    ((MirPixelFormat.argb_8888 ∈ available ∨ MirPixelFormat.abgr_8888 ∈ available) →
      getPixelFormat available true =
        (if MirPixelFormat.argb_8888 ∈ available then .argb_8888 else .abgr_8888)) := by
  constructor
  · simp only [getPixelFormat, formats, List.drop, firstSupported]
    split_ifs <;> simp
  · intro h
    simp only [getPixelFormat, formats, firstSupported]
    split_ifs <;> simp_all

/-- Witness for C2: with supported set `[XRGB_8888, ABGR_8888]` and alpha
requested, the negotiator picks ABGR_8888 (ARGB_8888 being unsupported). -/
theorem C2_pixelFormat_alpha_policy_witness :
    getPixelFormat [MirPixelFormat.xrgb_8888, MirPixelFormat.abgr_8888] true =
      MirPixelFormat.abgr_8888 := by
  have h := (C2_pixelFormat_alpha_policy
      [MirPixelFormat.xrgb_8888, MirPixelFormat.abgr_8888]).2 (Or.inr (by decide))
  rw [if_neg (by decide)] at h
  exact h

/-- Claim C3: a buffer-swap notification with a valid new size different
from the stored buffer size resets the catch-up counter to 0, stores the
new buffer size, sets the stored geometry's width and height to it while
leaving the origin unchanged, and notifies the toolkit of the geometry
change. -/
theorem C3_buffer_swap_new_size (w : WindowData) (nw nh : Int)
    (hw : 0 < nw) (hh : 0 < nh)
    (hne : w.bufferSize.w ≠ nw ∨ w.bufferSize.h ≠ nh) :
    (onBuffersSwapped w nw nh).1.resizeCatchUpAttempts = 0 ∧
    (onBuffersSwapped w nw nh).1.bufferSize = ⟨nw, nh⟩ ∧
    (onBuffersSwapped w nw nh).1.geometry.x = w.geometry.x ∧
    (onBuffersSwapped w nw nh).1.geometry.y = w.geometry.y ∧
    (onBuffersSwapped w nw nh).1.geometry.w = nw ∧
    (onBuffersSwapped w nw nh).1.geometry.h = nh ∧
    (onBuffersSwapped w nw nh).2 =
      [.geometryChanged ((w.geometry.setWidth nw).setHeight nh)] := by
  rcases hne with h | h <;>
    simp [onBuffersSwapped, h, hw, hh, QRect.setWidth, QRect.setHeight]

/-- Witness for C3 at a concrete window and new size. -/
theorem C3_buffer_swap_new_size_witness :
    (onBuffersSwapped ⟨.noState, ⟨100, 100⟩, ⟨5, 7, 100, 100⟩, true, 0⟩
        200 150).1.bufferSize = ⟨200, 150⟩ ∧
    (onBuffersSwapped ⟨.noState, ⟨100, 100⟩, ⟨5, 7, 100, 100⟩, true, 0⟩
        200 150).1.geometry.x = 5 :=
  ⟨(C3_buffer_swap_new_size ⟨.noState, ⟨100, 100⟩, ⟨5, 7, 100, 100⟩, true, 0⟩
      200 150 (by decide) (by decide) (Or.inl (by decide))).2.1,
   (C3_buffer_swap_new_size ⟨.noState, ⟨100, 100⟩, ⟨5, 7, 100, 100⟩, true, 0⟩
      200 150 (by decide) (by decide) (Or.inl (by decide))).2.2.1⟩

/-- Claim C4: from a converged window, a mismatched resize notification
arms the catch-up counter to 2 without touching buffer size or geometry
(emitting an expose and a flush); two subsequent swaps still reporting the
old size each decrement the counter and emit an expose; a third identical
swap emits nothing and changes no state. -/
theorem C4_resize_catch_up (w : WindowData) (rw rh : Int)
    (h0 : w.resizeCatchUpAttempts = 0)
    (hne : w.bufferSize.w ≠ rw ∨ w.bufferSize.h ≠ rh) :
    (handleSurfaceResize w rw rh).1 = { w with resizeCatchUpAttempts := 2 } ∧
    (handleSurfaceResize w rw rh).2 = [.exposeEvent (exposeRect w), .flushEvents] ∧
    onBuffersSwapped (handleSurfaceResize w rw rh).1 w.bufferSize.w w.bufferSize.h =
      ({ w with resizeCatchUpAttempts := 1 }, [.exposeEvent (exposeRect w)]) ∧
    onBuffersSwapped { w with resizeCatchUpAttempts := 1 } w.bufferSize.w w.bufferSize.h =
      ({ w with resizeCatchUpAttempts := 0 }, [.exposeEvent (exposeRect w)]) ∧
    onBuffersSwapped { w with resizeCatchUpAttempts := 0 } w.bufferSize.w w.bufferSize.h =
      ({ w with resizeCatchUpAttempts := 0 }, []) := by
  have e1 : (handleSurfaceResize w rw rh).1 = { w with resizeCatchUpAttempts := 2 } := by
    rcases hne with h | h <;> simp [handleSurfaceResize, h]
  have e2 : (handleSurfaceResize w rw rh).2 =
      [.exposeEvent (exposeRect w), .flushEvents] := by
    rcases hne with h | h <;> simp [handleSurfaceResize, h]
  refine ⟨e1, e2, ?_, ?_, ?_⟩ <;>
    simp [e1, onBuffersSwapped, exposeRect]

/-- Witness for C4 at a concrete converged window and mismatched size. -/
theorem C4_resize_catch_up_witness :
    (handleSurfaceResize ⟨.noState, ⟨100, 100⟩, ⟨0, 0, 100, 100⟩, true, 0⟩
        200 150).1 =
      { WindowData.mk .noState ⟨100, 100⟩ ⟨0, 0, 100, 100⟩ true 0 with
          resizeCatchUpAttempts := 2 } :=
  (C4_resize_catch_up ⟨.noState, ⟨100, 100⟩, ⟨0, 0, 100, 100⟩, true, 0⟩
      200 150 (by decide) (Or.inl (by decide))).1

/-- Claim C5 is right about the intended discipline but the code breaks
it: every mutating member opens with `QMutexLocker(&d->mutex);`, an
UNNAMED temporary destroyed at the end of that very statement, so the
mutex is released before any shared-state read or write. In both cited
bodies no shared access happens while the lock is held. -/
theorem C5_lock_not_held_through_mutation :
    mutationsLocked handleSurfaceResizeSteps = false ∧
    mutationsLocked onBuffersSwappedSteps = false := by decide

/-- Claim C6 as stated is false in its second half: with an empty
supported-format set the negotiator does return the invalid sentinel, but
`createWindow` still builds the surface spec with that sentinel and calls
`mir_surface_create` unconditionally — it does attempt surface creation
with it. -/
theorem C6_caller_uses_sentinel_counterexample :
    (createWindowSurfaceRequest [] false).pixelFormat = MirPixelFormat.invalid ∧
    (createWindowSurfaceRequest [] false).surfaceCreateAttempted = true := by
  decide

/-- Claim C6, amended: when none of the five candidates is supported the
negotiator returns the invalid sentinel (after reporting a warning), and
the caller nevertheless proceeds to attempt surface creation, passing the
sentinel into the surface spec — there is no guard in `createWindow`. -/
theorem C6_invalid_sentinel (available : List MirPixelFormat) (needsAlpha : Bool)
    (h : ∀ f ∈ formats, f ∉ available) :
    getPixelFormat available needsAlpha = .invalid ∧
    (createWindowSurfaceRequest available needsAlpha).pixelFormat = .invalid ∧
    (createWindowSurfaceRequest available needsAlpha).surfaceCreateAttempted = true := by
  have h1 : MirPixelFormat.argb_8888 ∉ available := h _ (by decide)
  have h2 : MirPixelFormat.abgr_8888 ∉ available := h _ (by decide)
  have h3 : MirPixelFormat.xrgb_8888 ∉ available := h _ (by decide)
  have h4 : MirPixelFormat.xbgr_8888 ∉ available := h _ (by decide)
  have h5 : MirPixelFormat.bgr_888 ∉ available := h _ (by decide)
  cases needsAlpha <;>
    simp [getPixelFormat, createWindowSurfaceRequest, formats, firstSupported,
      h1, h2, h3, h4, h5]

/-- Witness for C6's amended theorem at the supported set
`[RGB_888]`, which contains none of the five candidates. -/
theorem C6_invalid_sentinel_witness :
    getPixelFormat [MirPixelFormat.rgb_888] true = .invalid ∧
    (createWindowSurfaceRequest [MirPixelFormat.rgb_888] true).pixelFormat = .invalid ∧
    (createWindowSurfaceRequest [MirPixelFormat.rgb_888] true).surfaceCreateAttempted
      = true :=
  C6_invalid_sentinel [MirPixelFormat.rgb_888] true (by decide)

/-- Claim C7: `panelHeight` is `gridUnit*3 + floor(gridUnit/8)*2` with
default grid unit 8: the value "16" yields 52, the non-numeric value
"bogus" falls back to the default and yields 26, and a missing value also
yields 26. -/
theorem C7_panelHeight_values :
    panelHeight (some "16") = 52 ∧
    panelHeight (some "bogus") = 26 ∧
    panelHeight none = 26 := by decide

/-- Claim C8 as stated is false when the requested state already equals
the stored one: starting from a window in `NoState`, two successive
`setWindowState(NoState)` calls both hit the no-op branch and issue zero
state-change requests, not exactly one. -/
theorem C8_two_noop_calls_counterexample :
    ((setWindowState ⟨.noState, ⟨100, 100⟩, ⟨0, 0, 100, 100⟩, true, 0⟩ .noState).2 ++
     (setWindowState
        (setWindowState ⟨.noState, ⟨100, 100⟩, ⟨0, 0, 100, 100⟩, true, 0⟩ .noState).1
        .noState).2).countP Effect.isStateRequest ≠ 1 := by decide

/-- Claim C8, amended: when the requested state differs from the stored
one, two successive `setWindowState(s)` calls issue exactly one
synchronous state-change request, and the second call returns without
issuing a request or modifying state (when it already equals the stored
state, both calls are no-ops and zero requests are issued). -/
theorem C8_setWindowState_idempotent (w : WindowData) (s : WindowState)
    (h : s ≠ w.state) :
    ((setWindowState w s).2 ++
      (setWindowState (setWindowState w s).1 s).2).countP Effect.isStateRequest = 1 ∧
    setWindowState (setWindowState w s).1 s = ((setWindowState w s).1, []) := by
  simp [setWindowState, h, Effect.isStateRequest]

/-- Witness for C8's amended theorem: maximizing a `NoState` window twice
issues one request and the second call is a no-op. -/
theorem C8_setWindowState_idempotent_witness :
    ((setWindowState ⟨.noState, ⟨100, 100⟩, ⟨0, 0, 100, 100⟩, true, 0⟩ .maximized).2 ++
      (setWindowState
        (setWindowState ⟨.noState, ⟨100, 100⟩, ⟨0, 0, 100, 100⟩, true, 0⟩ .maximized).1
        .maximized).2).countP Effect.isStateRequest = 1 :=
  (C8_setWindowState_idempotent ⟨.noState, ⟨100, 100⟩, ⟨0, 0, 100, 100⟩, true, 0⟩
    .maximized (by decide)).1

/-- The process-wide counter before the `n`-th construction is `n + 1`. -/
theorem counterBefore_eq (n : Nat) : counterBefore n = n + 1 := by
  induction n with
  | zero => rfl
  | succ k ih => simp [counterBefore, allocWindowId, ih]

/-- Claim C9: every window id is strictly positive, and ids are strictly
increasing in construction order (hence pairwise distinct). -/
theorem C9_window_ids (m n : Nat) :
    0 < nthWindowId m ∧ (m < n → nthWindowId m < nthWindowId n) := by
  simp only [nthWindowId, allocWindowId, counterBefore_eq]
  omega

/-- Witness for C9: the first two windows get ids 1 and 2, positive and
increasing. -/
theorem C9_window_ids_witness :
    0 < nthWindowId 0 ∧ nthWindowId 0 < nthWindowId 1 :=
  ⟨(C9_window_ids 0 1).1, (C9_window_ids 0 1).2 (by decide)⟩

/-- Claim C10: `setVisible`, for both arguments, issues the synchronous
surface-state request (the stored state's mapping when showing, minimized
when hiding), then emits an expose event — carrying the current
geometry's size at the origin when the exposed flag is set, an empty
rectangle otherwise — then forces a flush of pending toolkit events; the
stored window fields are unchanged. -/
theorem C10_setVisible_effects (w : WindowData) (visible : Bool) :
    setVisible w visible =
      (w, [.setSurfaceState (if visible then qtWindowStateToMirSurfaceState w.state
                             else MirSurfaceState.minimized),
           .exposeEvent (if w.exposed then QRect.atOrigin w.geometry.size
                         else QRect.empty),
           .flushEvents]) := by
  cases visible <;> simp [setVisible, exposeRect]

end QtUbuntu
